import Mathlib

/-!
Verification of the BoomiisUK restaurant backend (`main.py`, `schemas.py`).

The FastAPI handlers are embedded shallowly: the MongoDB collection backing
each entity is modelled as a Lean `List` of typed documents (the pydantic
schemas of `schemas.py` become structures), `create_document` becomes list
append, Mongo `update_one` becomes an update of the first matching element,
and query dictionaries become Boolean filters.  HTTP outcomes are modelled
by small inductive result types.  Monetary amounts (`float` in the source)
are idealised as `Rat`; Python's `round(x, 2)` becomes exact
round-half-to-even at two decimals.  Wall-clock fields (`updated_at`,
timestamps) are outside the model.  The SHA-256 and HMAC-SHA256 primitives
from Python's `hashlib`/`hmac` are external library code, so they enter the
embedding as function parameters; the session-cookie theorems hold for every
choice of those parameters.
-/

namespace BoomiisUK

/-! ## Reservations (`schemas.Reservation`, `main.create_reservation`) -/

/-- `schemas.Reservation`.  `party_size` carries pydantic bounds
`ge=1, le=20`; since `main.ReservationBody` itself is unbounded, these
bounds are enforced inside the handler, at the
`Reservation(**body.model_dump())` construction. -/
structure Reservation where
  full_name : String
  email : String
  phone : String
  date : String
  time : String
  party_size : Int
  notes : Option String
  status : String
deriving Repr, DecidableEq

/-- Request body of `POST /api/reservations` (`main.ReservationBody`). -/
structure ReservationBody where
  full_name : String
  email : String
  phone : String
  date : String
  time : String
  party_size : Int
  notes : Option String
deriving Repr, DecidableEq

/-- The filter `{"date": d, "time": t, "status": {"$in": ["requested", "confirmed"]}}`
used by `create_reservation`'s `count_documents` call. -/
def reservationMatchesSlot (d t : String) (r : Reservation) : Bool :=
  r.date == d && r.time == t && (r.status == "requested" || r.status == "confirmed")

/-- `db["reservation"].count_documents({...})` over the modelled store. -/
def slotCount (store : List Reservation) (d t : String) : Nat :=
  (store.filter (reservationMatchesSlot d t)).length

/-- The document built from a reservation request: the body's fields plus
the schema default `status="requested"`. -/
def reservationRecord (body : ReservationBody) : Reservation :=
  { full_name := body.full_name
    email := body.email
    phone := body.phone
    date := body.date
    time := body.time
    party_size := body.party_size
    notes := body.notes
    status := "requested" }

/-- `Reservation(**body.model_dump())`: pydantic validates
`party_size` (`ge=1, le=20`) at construction; an out-of-range value raises
`ValidationError` (`none`). -/
def reservationOfBody (body : ReservationBody) : Option Reservation :=
  if 1 ≤ body.party_size ∧ body.party_size ≤ 20 then
    some (reservationRecord body)
  else none

/-- Outcome of `POST /api/reservations`: HTTP 409, the generic HTTP 500
from an uncaught pydantic `ValidationError`, or `{"reservation_id": id}`. -/
inductive ReservationOutcome where
  | conflict
  | validationFailed
  | reservationCreated (id : String)
deriving Repr, DecidableEq

/-- `main.create_reservation`: the capacity check runs first; only then is
the `Reservation` document constructed, where an out-of-range `party_size`
raises (500) with nothing stored.  `newId` stands for the id that
`create_document` generates for the inserted document.  (The source also
computes a `slot_key` string that it never uses; it is omitted.) -/
def create_reservation (newId : String) (store : List Reservation)
    (body : ReservationBody) : ReservationOutcome × List Reservation :=
  if 20 ≤ slotCount store body.date body.time then
    (ReservationOutcome.conflict, store)
  else
    match reservationOfBody body with
    | none => (ReservationOutcome.validationFailed, store)
    | some r => (ReservationOutcome.reservationCreated newId, store ++ [r])

/-! ## Session authentication (`main.require_admin`, `main.admin_login`) -/

/-- Splits a character list at the first `':'`, as Python's
`s.split(":", 1)` followed by unpacking into exactly two variables: `none`
models the `ValueError` raised when no colon occurs. -/
def splitColonChars : List Char → Option (List Char × List Char)
  | [] => none
  | c :: cs =>
    if c = ':' then some ([], cs)
    else
      match splitColonChars cs with
      | none => none
      | some (a, b) => some (c :: a, b)

/-- `session.split(":", 1)` on strings. -/
def splitFirstColon (s : String) : Option (String × String) :=
  match splitColonChars s.data with
  | none => none
  | some (a, b) => some (String.mk a, String.mk b)

/-- `main.require_admin`: `true` means the request is authenticated, `false`
models the HTTP 401 raised otherwise.  Python's `if not session` treats both
an absent cookie and an empty-string cookie as unauthenticated.  `hmacHex`
stands for `hmac.new(secret, msg, sha256).hexdigest()`. -/
def require_admin (hmacHex : String → String → String)
    (secret adminEmail : String) (session : Option String) : Bool :=
  match session with
  | none => false
  | some s =>
    if s = "" then false
    else
      match splitFirstColon s with
      | none => false
      | some (email, sig) => (sig == hmacHex secret email) && (email == adminEmail)

/-- `main.admin_login` with `ADMIN_PASSWORD_HASH` already configured (the
claim's premise), so the bootstrap branch is not taken.  `hashPassword`
stands for `hashlib.sha256(password).hexdigest()`; `verify_password` is its
constant-time digest comparison, which is plain equality.  `some cookie`
models a 200 response that sets the cookie; `none` models the 401. -/
def admin_login (hmacHex : String → String → String)
    (hashPassword : String → String)
    (secret adminEmail adminHash : String)
    (email password : String) : Option String :=
  if email == adminEmail && hashPassword password == adminHash then
    some (adminEmail ++ ":" ++ hmacHex secret adminEmail)
  else none

/-! ## Orders (`schemas.OrderItem`, `schemas.Order`, `main.calculate_totals`,
`main.create_order`, `main.confirm_order`) -/

/-- `schemas.OrderItem`.  `quantity` carries pydantic bound `ge=1`;
`subtotal` is the client-supplied per-item subtotal field. -/
structure OrderItem where
  item_slug : String
  title : String
  unit_price : Rat
  quantity : Int
  subtotal : Rat
deriving Repr, DecidableEq

/-- Round half to even (Python's `round`) to an integer. -/
def roundHalfEven (x : Rat) : Int :=
  let n := ⌊x⌋
  let frac := x - (n : Rat)
  if frac < 1 / 2 then n
  else if 1 / 2 < frac then n + 1
  else if n % 2 = 0 then n else n + 1

/-- Python's `round(x, 2)`, idealised over `Rat`. -/
def round2 (x : Rat) : Rat := (roundHalfEven (x * 100) : Rat) / 100

/-- The tuple returned by `main.calculate_totals`. -/
structure Totals where
  subtotal : Rat
  taxes : Rat
  fees : Rat
  total : Rat
deriving Repr, DecidableEq

/-- The tail of `main.calculate_totals` after `subtotal` is computed:
`taxes = round(subtotal * 0.0, 2)`, `fees = 0.0`,
`total = round(subtotal + taxes + fees, 2)`. -/
def totalsOfSubtotal (subtotal : Rat) : Totals :=
  let taxes := round2 (subtotal * 0)
  let fees : Rat := 0
  let total := round2 (subtotal + taxes + fees)
  { subtotal := subtotal, taxes := taxes, fees := fees, total := total }

/-- `main.calculate_totals`:
`subtotal = sum(i.unit_price * i.quantity for i in items)`, then taxes,
fees and total as in `totalsOfSubtotal`. -/
def calculate_totals (items : List OrderItem) : Totals :=
  totalsOfSubtotal ((items.map (fun i => i.unit_price * (i.quantity : Rat))).sum)

/-- Request body of `POST /api/orders` (`main.CreateOrderBody`). -/
structure CreateOrderBody where
  full_name : Option String
  email : Option String
  phone : Option String
  order_type : String
  address : Option String
  scheduled_for : Option String
  items : List OrderItem
  notes : Option String
deriving Repr, DecidableEq

/-- A stored `order` document: `schemas.Order` plus the Mongo `_id`
(a 24-character hex string), as persisted by `create_document`. -/
structure OrderDoc where
  id : String
  full_name : Option String
  email : Option String
  phone : Option String
  order_type : String
  address : Option String
  scheduled_for : Option String
  items : List OrderItem
  notes : Option String
  subtotal : Rat
  taxes : Rat
  fees : Rat
  total : Rat
  currency : String
  status : String
  payment_intent_id : Option String
  payment_method : Option String
  payment_ref : Option String
deriving Repr, DecidableEq

/-- The fields of the `Order(...)` document built by `main.create_order`:
schema defaults `status="payment_required"`, `payment_intent_id=None`,
`payment_method=None`, `payment_ref=None`; `scheduled_for` is explicitly
passed as `None`; `currency="GBP"`. -/
def orderRecord (newId : String) (body : CreateOrderBody) : OrderDoc :=
  let t := calculate_totals body.items
  { id := newId
    full_name := body.full_name
    email := body.email
    phone := body.phone
    order_type := body.order_type
    address := body.address
    scheduled_for := none
    items := body.items
    notes := body.notes
    subtotal := t.subtotal
    taxes := t.taxes
    fees := t.fees
    total := t.total
    currency := "GBP"
    status := "payment_required"
    payment_intent_id := none
    payment_method := none
    payment_ref := none }

/-- The `Order(...)` construction of `main.create_order`: pydantic
validates `order_type` against `Literal["pickup", "delivery"]`
(`schemas.Order`; `main.CreateOrderBody.order_type` is an unconstrained
`str`), so any other value raises `ValidationError` (`none`) before the
Stripe branch runs. -/
def buildOrderDoc (newId : String) (body : CreateOrderBody) : Option OrderDoc :=
  if body.order_type = "pickup" ∨ body.order_type = "delivery" then
    some (orderRecord newId body)
  else none

/-- Python's `int()` truncation toward zero, for `int(total * 100)`. -/
def intTrunc (q : Rat) : Int := if 0 ≤ q then ⌊q⌋ else ⌈q⌉

/-- Result of the external `stripe.PaymentIntent.create` call, as a function
of the minor-unit amount passed to it: `STRIPE_SECRET` unset, the call
raising, or the call returning an intent id. -/
inductive StripeOutcome where
  | notConfigured
  | failure
  | success (intentId : String)
deriving Repr, DecidableEq

/-- Outcome of `POST /api/orders`: the JSON response
`{"order_id": ..., "client_secret": ...}`, the HTTP 500 Stripe error, or
the generic HTTP 500 from an uncaught pydantic `ValidationError`. -/
inductive CreateOrderOutcome where
  | created (order_id : String) (client_secret : Option String)
  | serverError
  | validationError
deriving Repr, DecidableEq

/-- Lines 217–234 of `main.create_order`, reached once the `Order(...)`
document has been built: the payment intent is requested (for
`int(total * 100)` minor units) before anything is persisted; on `failure`
the handler raises 500 and the store is unchanged; on `success` the stored
document carries the intent id and `status="payment_required"`; the
response exposes `order_doc.get("payment_intent_id")` as `client_secret`. -/
def persistOrder (newId : String) (stripe : Int → StripeOutcome)
    (store : List OrderDoc) (doc : OrderDoc) :
    CreateOrderOutcome × List OrderDoc :=
  match stripe (intTrunc (doc.total * 100)) with
  | StripeOutcome.notConfigured =>
      (CreateOrderOutcome.created newId none, store ++ [doc])
  | StripeOutcome.failure => (CreateOrderOutcome.serverError, store)
  | StripeOutcome.success iid =>
      (CreateOrderOutcome.created newId (some iid),
       store ++ [{ doc with payment_intent_id := some iid, status := "payment_required" }])

/-- `main.create_order`: the `Order(...)` construction (with its
`order_type` Literal validation) runs first — a `ValidationError` is an
uncaught 500 with nothing persisted and the Stripe call never made — and
only then the Stripe branch and the insert. -/
def create_order (newId : String) (stripe : Int → StripeOutcome)
    (store : List OrderDoc) (body : CreateOrderBody) :
    CreateOrderOutcome × List OrderDoc :=
  match buildOrderDoc newId body with
  | none => (CreateOrderOutcome.validationError, store)
  | some doc => persistOrder newId stripe store doc

/-- `bson.ObjectId` accepts exactly 24-character hexadecimal strings. -/
def isHexDigit (c : Char) : Bool :=
  c.isDigit || ('a' ≤ c && c ≤ 'f') || ('A' ≤ c && c ≤ 'F')

/-- Well-formedness of an `ObjectId` string. -/
def isValidObjectId (s : String) : Bool :=
  s.length == 24 && s.data.all isHexDigit

/-- Request body of `POST /api/orders/confirm` (`main.ConfirmBody`). -/
structure ConfirmBody where
  order_id : String
  payment_ref : Option String
deriving Repr, DecidableEq

/-- Outcome of `POST /api/orders/confirm`: `{"ok": true}` or an HTTP 400
with its detail string.  (The 500 branch re-raises database errors, which
the store model does not produce.) -/
inductive ConfirmOutcome where
  | confirmOk
  | badRequest (detail : String)
deriving Repr, DecidableEq

/-- Mongo `update_one`: rewrite the first element matching `q`, if any. -/
def updateFirst (q : α → Bool) (f : α → α) : List α → List α
  | [] => []
  | x :: xs => if q x then f x :: xs else x :: updateFirst q f xs

/-- `main.confirm_order`: empty `order_id` is rejected first (Python
truthiness), then `ObjectId(order_id)` must parse, then
`update_one({"_id": oid}, {"$set": {"status": "paid", "payment_ref": ...}})`
runs unconditionally; a nonexistent id matches nothing and the handler still
returns `{"ok": true}`.  (`updated_at` is a wall-clock field, outside the
model.) -/
def confirm_order (store : List OrderDoc) (body : ConfirmBody) :
    ConfirmOutcome × List OrderDoc :=
  if body.order_id = "" then (ConfirmOutcome.badRequest "Missing order_id", store)
  else if isValidObjectId body.order_id then
    (ConfirmOutcome.confirmOk,
     updateFirst (fun o => o.id == body.order_id)
       (fun o => { o with status := "paid", payment_ref := body.payment_ref }) store)
  else (ConfirmOutcome.badRequest "Invalid id", store)

/-! ## Menu (`schemas.MenuCategory`, `schemas.MenuItem`, `main.get_menu`,
`main.upsert_category`, `main.upsert_item`) -/

/-- `schemas.MenuCategory`. -/
structure MenuCategory where
  name : String
  slug : String
  description : Option String
  position : Int
  is_active : Bool
deriving Repr, DecidableEq

/-- `schemas.MenuItem`. -/
structure MenuItem where
  title : String
  slug : String
  description : Option String
  price : Rat
  currency : String
  category_slug : String
  image_url : Option String
  tags : List String
  allergens : List String
  is_active : Bool
deriving Repr, DecidableEq

/-- The query dictionary built by `main.get_menu`: `if tag:` adds
`{"tags": {"$in": [tag]}}` and `if category:` adds
`{"category_slug": category}`; Python truthiness makes an empty-string
parameter behave like an absent one.  No `is_active` condition is added. -/
def menuItemMatches (tag category : Option String) (i : MenuItem) : Bool :=
  (match tag with
   | none => true
   | some t => if t = "" then true else i.tags.contains t) &&
  (match category with
   | none => true
   | some c => if c = "" then true else i.category_slug == c)

/-- `main.get_menu`: returns all categories unfiltered, and the items
matching the query. -/
def get_menu (items : List MenuItem) (cats : List MenuCategory)
    (tag category : Option String) : List MenuCategory × List MenuItem :=
  (cats, items.filter (menuItemMatches tag category))

/-- Body of `POST /api/admin/menu/category` (`main.UpsertCategory`). -/
structure UpsertCategory where
  name : String
  slug : String
  description : Option String
  position : Int
  is_active : Bool
deriving Repr, DecidableEq

/-- Body of `POST /api/admin/menu/item` (`main.UpsertItem`). -/
structure UpsertItem where
  title : String
  slug : String
  description : Option String
  price : Rat
  currency : String
  category_slug : String
  image_url : Option String
  tags : List String
  allergens : List String
  is_active : Bool
deriving Repr, DecidableEq

/-- The document `$set` by `upsert_category`: every payload field. -/
def categoryOfUpsert (c : UpsertCategory) : MenuCategory :=
  { name := c.name, slug := c.slug, description := c.description
    position := c.position, is_active := c.is_active }

/-- The document `$set` by `upsert_item`: every payload field. -/
def itemOfUpsert (p : UpsertItem) : MenuItem :=
  { title := p.title, slug := p.slug, description := p.description
    price := p.price, currency := p.currency, category_slug := p.category_slug
    image_url := p.image_url, tags := p.tags, allergens := p.allergens
    is_active := p.is_active }

/-- `main.upsert_category`:
`update_one({"slug": cat.slug}, {"$set": cat.model_dump()}, upsert=True)` —
replace the first document with that slug, or insert when none matches. -/
def upsert_category (store : List MenuCategory) (c : UpsertCategory) :
    List MenuCategory :=
  if store.any (fun d => d.slug == c.slug) then
    updateFirst (fun d => d.slug == c.slug) (fun _ => categoryOfUpsert c) store
  else store ++ [categoryOfUpsert c]

/-- `main.upsert_item`:
`update_one({"slug": item.slug}, {"$set": item.model_dump()}, upsert=True)`. -/
def upsert_item (store : List MenuItem) (p : UpsertItem) : List MenuItem :=
  if store.any (fun d => d.slug == p.slug) then
    updateFirst (fun d => d.slug == p.slug) (fun _ => itemOfUpsert p) store
  else store ++ [itemOfUpsert p]

/-! ## Blog (`schemas.BlogPost`, `main.blog_detail`) -/

/-- `schemas.BlogPost`; `published_at` (a datetime) is abstracted to an
optional timestamp. -/
structure BlogPost where
  title : String
  slug : String
  excerpt : Option String
  content : String
  cover_image_url : Option String
  published : Bool
  published_at : Option Nat
deriving Repr, DecidableEq

/-- `main.blog_detail`: `get_documents("blogpost", {"slug": slug,
"published": True}, limit=1)`, HTTP 404 (`none`) when empty, else the first
document. -/
def blog_detail (store : List BlogPost) (slug : String) : Option BlogPost :=
  match store.filter (fun p => p.slug == slug && p.published) with
  | [] => none
  | p :: _ => some p

/-! ## Gallery (`schemas.GalleryImage`, `main.gallery_list`) -/

/-- `schemas.GalleryImage`. -/
structure GalleryImage where
  title : Option String
  image_url : String
  category : Option String
  alt : Option String
  position : Int
  is_active : Bool
deriving Repr, DecidableEq

/-- The sort key of `images.sort(key=lambda x: x.get("position", 0))`. -/
def galleryLe (a b : GalleryImage) : Prop := a.position ≤ b.position

instance : DecidableRel galleryLe := fun a b => Int.decLe a.position b.position

/-- `main.gallery_list`: fetch `{"is_active": True}` documents, then a
stable ascending sort by `position` (insertion sort models Python's stable
`list.sort`). -/
def gallery_list (store : List GalleryImage) : List GalleryImage :=
  (store.filter (fun i => i.is_active)).insertionSort galleryLe

/-! ## Concrete documents used by counterexamples and witnesses -/

/-- A reservation request at the slot `("2025-03-01", "19:00")`. -/
def sampleResBody (n : Int) : ReservationBody :=
  { full_name := "Guest", email := "g@x.io", phone := "0", date := "2025-03-01"
    time := "19:00", party_size := n, notes := none }

/-- Twenty stored party-of-one reservations at `("2025-03-01", "19:00")`. -/
def fullSlot : List Reservation :=
  List.replicate 20 (reservationRecord (sampleResBody 1))

/-- An order item priced at 0.001, whose exact subtotal survives no
two-decimal rounding. -/
def tinyItem : OrderItem :=
  { item_slug := "truffle", title := "Truffle shaving", unit_price := 1 / 1000
    quantity := 1, subtotal := 1 / 1000 }

/-- An order item with a client-supplied `subtotal` of 17 that does not
match `unit_price * quantity = 6`. -/
def sampleItem : OrderItem :=
  { item_slug := "espresso", title := "Espresso", unit_price := 2
    quantity := 3, subtotal := 17 }

/-- A stored order awaiting payment, with a well-formed `ObjectId`. -/
def sampleOrder : OrderDoc :=
  { id := "0123456789abcdef01234567", full_name := none, email := none
    phone := none, order_type := "pickup", address := none
    scheduled_for := none, items := [], notes := none, subtotal := 0
    taxes := 0, fees := 0, total := 0, currency := "GBP"
    status := "payment_required", payment_intent_id := none
    payment_method := none, payment_ref := none }

/-- A pickup order request carrying one item. -/
def sampleOrderBody : CreateOrderBody :=
  { full_name := none, email := none, phone := none, order_type := "pickup"
    address := none, scheduled_for := none, items := [sampleItem], notes := none }

/-- A menu item with `is_active = false`. -/
def inactiveItem : MenuItem :=
  { title := "Hidden dish", slug := "hidden-dish", description := none
    price := 5, currency := "GBP", category_slug := "mains", image_url := none
    tags := [], allergens := [], is_active := false }

/-- An active menu item tagged `"vegan"`. -/
def veganItem : MenuItem :=
  { title := "Salad", slug := "salad", description := none, price := 7
    currency := "GBP", category_slug := "starters", image_url := none
    tags := ["vegan"], allergens := [], is_active := true }

/-- A menu-item upsert payload. -/
def sampleUpsertItem : UpsertItem :=
  { title := "Flat white", slug := "flat-white", description := none
    price := 3, currency := "GBP", category_slug := "drinks"
    image_url := none, tags := [], allergens := [], is_active := true }

/-- A menu-category upsert payload. -/
def sampleUpsertCat : UpsertCategory :=
  { name := "Drinks", slug := "drinks", description := none
    position := 1, is_active := true }

/-- The gallery store of the spec's example: active images at positions
3, 1, 2 and an inactive one at position 0. -/
def exampleGallery : List GalleryImage :=
  [ { title := some "a", image_url := "u1", category := none, alt := none
      position := 3, is_active := true }
  , { title := some "b", image_url := "u2", category := none, alt := none
      position := 1, is_active := true }
  , { title := some "c", image_url := "u3", category := none, alt := none
      position := 2, is_active := true }
  , { title := some "d", image_url := "u4", category := none, alt := none
      position := 0, is_active := false } ]

/-! ## Helper lemmas -/

theorem splitColonChars_append (l₁ l₂ : List Char) (h : (':' : Char) ∉ l₁) :
    splitColonChars (l₁ ++ ':' :: l₂) = some (l₁, l₂) := by
  induction l₁ with
  | nil => simp [splitColonChars]
  | cons c cs ih =>
    have hc : ¬ c = ':' := fun e => h (e ▸ List.mem_cons_self c cs)
    have hcs : (':' : Char) ∉ cs := fun hm => h (List.mem_cons_of_mem c hm)
    show splitColonChars (c :: (cs ++ ':' :: l₂)) = some (c :: cs, l₂)
    simp only [splitColonChars, if_neg hc, ih hcs]

theorem splitColonChars_eq : ∀ {l a b : List Char},
    splitColonChars l = some (a, b) → l = a ++ ':' :: b := by
  intro l
  induction l with
  | nil => intro a b h; simp [splitColonChars] at h
  | cons c cs ih =>
    intro a b h
    simp only [splitColonChars] at h
    by_cases hc : c = ':'
    · rw [if_pos hc] at h
      injection h with h
      injection h with h1 h2
      subst hc; rw [← h1, ← h2]; rfl
    · rw [if_neg hc] at h
      cases hs : splitColonChars cs with
      | none => rw [hs] at h; exact absurd h (by simp)
      | some p =>
        obtain ⟨p1, p2⟩ := p
        rw [hs] at h
        injection h with h
        injection h with h1 h2
        rw [← h1, ← h2, List.cons_append]
        exact congrArg (c :: ·) (ih hs)

theorem splitFirstColon_append (a b : String) (h : (':' : Char) ∉ a.data) :
    splitFirstColon (a ++ ":" ++ b) = some (a, b) := by
  have hdata : (a ++ ":" ++ b).data = a.data ++ ':' :: b.data := by
    simp [String.data_append]
  unfold splitFirstColon
  rw [hdata, splitColonChars_append _ _ h]

theorem splitFirstColon_eq {s e sig : String}
    (h : splitFirstColon s = some (e, sig)) : s = e ++ ":" ++ sig := by
  unfold splitFirstColon at h
  cases hs : splitColonChars s.data with
  | none => rw [hs] at h; exact absurd h (by simp)
  | some p =>
    obtain ⟨a, b⟩ := p
    rw [hs] at h
    injection h with h
    injection h with h1 h2
    have hd := splitColonChars_eq hs
    rw [← h1, ← h2]
    cases s with
    | mk l =>
      show String.mk l = String.mk (a ++ [':'] ++ b)
      exact congrArg String.mk (by simpa using hd)

theorem updateFirst_append_none {α : Type} (q : α → Bool) (f : α → α)
    (pre rest : List α) (h : ∀ x ∈ pre, q x = false) :
    updateFirst q f (pre ++ rest) = pre ++ updateFirst q f rest := by
  induction pre with
  | nil => rfl
  | cons x xs ih =>
    have hx : q x = false := h x (List.mem_cons_self x xs)
    show updateFirst q f (x :: (xs ++ rest)) = x :: (xs ++ updateFirst q f rest)
    simp only [updateFirst, hx, Bool.false_eq_true, if_false]
    exact congrArg (x :: ·) (ih (fun y hy => h y (List.mem_cons_of_mem x hy)))

theorem updateFirst_of_none {α : Type} (q : α → Bool) (f : α → α) (l : List α)
    (h : ∀ x ∈ l, q x = false) : updateFirst q f l = l := by
  have h2 := updateFirst_append_none q f l [] h
  simpa [updateFirst] using h2

theorem updateFirst_const_idem {α : Type} (q : α → Bool) (v : α)
    (hv : q v = true) (l : List α) :
    updateFirst q (fun _ => v) (updateFirst q (fun _ => v) l)
      = updateFirst q (fun _ => v) l := by
  induction l with
  | nil => rfl
  | cons x xs ih =>
    by_cases hx : q x = true
    · simp only [updateFirst, if_pos hx, if_pos hv]
    · simp only [updateFirst, if_neg hx, ih]

theorem require_admin_some (hmacHex : String → String → String)
    (secret adminEmail s : String) :
    require_admin hmacHex secret adminEmail (some s)
      = if s = "" then false
        else
          match splitFirstColon s with
          | none => false
          | some (email, sig) =>
              (sig == hmacHex secret email) && (email == adminEmail) := rfl

theorem updateFirst_cons_of_pos {α : Type} (q : α → Bool) (f : α → α) (x : α)
    (l : List α) (hx : q x = true) : updateFirst q f (x :: l) = f x :: l := by
  simp [updateFirst, if_pos hx]

theorem any_updateFirst_const {α : Type} (q : α → Bool) (v : α) (hv : q v = true)
    (l : List α) (h : l.any q = true) :
    (updateFirst q (fun _ => v) l).any q = true := by
  induction l with
  | nil => exact h
  | cons x xs ih =>
    by_cases hx : q x = true
    · simp [updateFirst, if_pos hx, hv]
    · have hxs : xs.any q = true := by
        rcases List.any_eq_true.mp h with ⟨a, ha, hqa⟩
        cases List.mem_cons.mp ha with
        | inl he => exact absurd (he ▸ hqa) hx
        | inr hm => exact List.any_eq_true.mpr ⟨a, hm, hqa⟩
      simp [updateFirst, if_neg hx, ih hxs]

theorem isValidObjectId_ne_empty {s : String} (h : isValidObjectId s = true) :
    s ≠ "" := by
  intro he
  rw [he] at h
  exact absurd h (by decide)

theorem roundHalfEven_intCast (n : Int) : roundHalfEven (n : Rat) = n := by
  unfold roundHalfEven
  rw [Int.floor_intCast]
  norm_num

theorem round2_of_cents (n : Int) : round2 ((n : Rat) / 100) = (n : Rat) / 100 := by
  unfold round2
  have h : ((n : Rat) / 100) * 100 = (n : Rat) := by field_simp
  rw [h, roundHalfEven_intCast]

theorem round2_zero : round2 0 = 0 := by
  have h := round2_of_cents 0
  simpa using h

/-! ## Claims -/

/-- C1: `create_reservation` rejects with 409 Conflict exactly when the
store already holds at least 20 reservations with the request's date and
time and status in `{requested, confirmed}`; otherwise, for a request whose
`party_size` lies in the schema's range `[1, 20]`, it persists the
reservation and returns its id (an out-of-range `party_size` instead hits
the in-handler pydantic validation: 500 with nothing stored); the slot
count is a flat count of matching bookings that is independent of every
reservation's `party_size`. -/
theorem c1_reservation_capacity (newId : String) (store : List Reservation)
    (body : ReservationBody) :
    (20 ≤ slotCount store body.date body.time →
        create_reservation newId store body = (ReservationOutcome.conflict, store)) ∧
    (slotCount store body.date body.time < 20 →
        1 ≤ body.party_size → body.party_size ≤ 20 →
        create_reservation newId store body
          = (ReservationOutcome.reservationCreated newId,
             store ++ [reservationRecord body])) ∧
    (slotCount store body.date body.time < 20 →
        (body.party_size < 1 ∨ 20 < body.party_size) →
        create_reservation newId store body
          = (ReservationOutcome.validationFailed, store)) ∧
    (∀ f : Reservation → Int,
        slotCount (store.map (fun r => { r with party_size := f r }))
            body.date body.time
          = slotCount store body.date body.time) := by
  refine ⟨fun h => ?_, fun h h1 h2 => ?_, fun h hbad => ?_, fun f => ?_⟩
  · unfold create_reservation
    rw [if_pos h]
  · unfold create_reservation reservationOfBody
    rw [if_neg (by omega), if_pos ⟨h1, h2⟩]
  · unfold create_reservation reservationOfBody
    rw [if_neg (by omega), if_neg (by omega)]
  · unfold slotCount
    induction store with
    | nil => rfl
    | cons r rs ih =>
      show (List.filter _ ({ r with party_size := f r } :: rs.map _)).length = _
      simp only [List.filter_cons]
      have hpred : reservationMatchesSlot body.date body.time
          { r with party_size := f r }
            = reservationMatchesSlot body.date body.time r := rfl
      rw [hpred]
      cases hmatch : reservationMatchesSlot body.date body.time r <;> simp [ih]

/-- Witness for C1: with 20 party-of-one reservations stored at the slot
`("2025-03-01", "19:00")`, a 21st request for that slot is rejected; and a
party-of-five request against an empty store is validated and stored. -/
theorem c1_witness :
    (20 ≤ slotCount fullSlot (sampleResBody 1).date (sampleResBody 1).time ∧
     create_reservation "id21" fullSlot (sampleResBody 1)
       = (ReservationOutcome.conflict, fullSlot)) ∧
    create_reservation "id1" [] (sampleResBody 5)
      = (ReservationOutcome.reservationCreated "id1",
         [] ++ [reservationRecord (sampleResBody 5)]) :=
  ⟨⟨by decide,
    (c1_reservation_capacity "id21" fullSlot (sampleResBody 1)).1 (by decide)⟩,
   (c1_reservation_capacity "id1" [] (sampleResBody 5)).2.1
     (by decide) (by decide) (by decide)⟩

/-- C2: when the configured admin hash matches the supplied password's
digest, `admin_login` with the admin email issues the cookie
`adminEmail ++ ":" ++ HMAC(secret, adminEmail)`; `require_admin` accepts a
cookie exactly when it equals that value (so every cookie with an altered
email part or signature part, every string that does not parse as
`email:signature`, and the empty cookie fail with 401), and an absent
cookie also fails.  The statement is parametric in the external HMAC-SHA256
and SHA-256 primitives; the admin email contains no `':'` (true of
`admin@boomiis.uk` and of every email address). -/
theorem c2_admin_session (hmacHex : String → String → String)
    (hashPassword : String → String)
    (secret adminEmail adminHash : String)
    (hc : (':' : Char) ∉ adminEmail.data) :
    (∀ password, hashPassword password = adminHash →
        admin_login hmacHex hashPassword secret adminEmail adminHash
            adminEmail password
          = some (adminEmail ++ ":" ++ hmacHex secret adminEmail)) ∧
    (∀ cookie,
        require_admin hmacHex secret adminEmail (some cookie) = true ↔
          cookie = adminEmail ++ ":" ++ hmacHex secret adminEmail) ∧
    require_admin hmacHex secret adminEmail none = false := by
  refine ⟨fun pw hpw => ?_, fun cookie => ⟨fun hacc => ?_, fun heq => ?_⟩, rfl⟩
  · simp [admin_login, hpw]
  · rw [require_admin_some] at hacc
    by_cases he : cookie = ""
    · rw [if_pos he] at hacc
      exact absurd hacc (by simp)
    · rw [if_neg he] at hacc
      cases hs : splitFirstColon cookie with
      | none => rw [hs] at hacc; exact absurd hacc (by simp)
      | some p =>
        obtain ⟨e, sig⟩ := p
        rw [hs] at hacc
        have hparts : sig = hmacHex secret e ∧ e = adminEmail := by
          simpa using hacc
        have hcookie := splitFirstColon_eq hs
        rw [hcookie, hparts.1, hparts.2]
  · subst heq
    have hne : adminEmail ++ ":" ++ hmacHex secret adminEmail ≠ "" := by
      intro h0
      have : (adminEmail ++ ":" ++ hmacHex secret adminEmail).data = [] :=
        congrArg String.data h0
      simp [String.data_append] at this
    rw [require_admin_some, if_neg hne, splitFirstColon_append _ _ hc]
    simp

/-- Witness for C2: a concrete instantiation of the HMAC and hash
parameters, secret, email, and password hash; the issued cookie verifies. -/
theorem c2_witness :
    admin_login (fun k m => k ++ "|" ++ m) (fun p => p ++ p) "sec" "a@b"
        "pwpw" "a@b" "pw"
      = some ("a@b" ++ ":" ++ (fun k m => k ++ "|" ++ m) "sec" "a@b") ∧
    require_admin (fun k m => k ++ "|" ++ m) "sec" "a@b"
        (some ("a@b" ++ ":" ++ (fun k m => k ++ "|" ++ m) "sec" "a@b")) = true := by
  constructor
  · exact (c2_admin_session (fun k m => k ++ "|" ++ m) (fun p => p ++ p)
      "sec" "a@b" "pwpw" (by decide)).1 "pw" rfl
  · exact ((c2_admin_session (fun k m => k ++ "|" ++ m) (fun p => p ++ p)
      "sec" "a@b" "pwpw" (by decide)).2.1 _).2 rfl

theorem totalsOfSubtotal_eq (s : Rat) :
    totalsOfSubtotal s = { subtotal := s, taxes := 0, fees := 0, total := round2 s } := by
  show Totals.mk s (round2 (s * 0)) 0 (round2 (s + round2 (s * 0) + 0)) = _
  rw [mul_zero, round2_zero, add_zero, add_zero]

/-- C3 counterexample: for the single item priced 0.001 with quantity 1 the
computed total is `round(0.001, 2) = 0`, which differs from the computed
subtotal `0.001`, so "total equals subtotal" fails as stated. -/
theorem c3_counterexample :
    (calculate_totals [tinyItem]).total ≠ (calculate_totals [tinyItem]).subtotal := by
  rw [show calculate_totals [tinyItem] = totalsOfSubtotal (1 / 1000) by
    norm_num [calculate_totals, tinyItem]]
  rw [totalsOfSubtotal_eq]
  show round2 (1 / 1000) ≠ 1 / 1000
  norm_num [round2, roundHalfEven, Int.floor_eq_iff]

/-- C3 (amended): the stored subtotal equals the sum of
`unit_price * quantity` over the submitted items, taxes and fees are zero,
and the total is the subtotal rounded to 2 decimals — so the total equals
the subtotal exactly when the subtotal is a whole number of hundredths (in
particular it can differ, see the counterexample); the client-supplied
per-item `subtotal` fields do not enter the computation. -/
theorem c3_totals_amended (items : List OrderItem) :
    (calculate_totals items).subtotal
        = (items.map (fun i => i.unit_price * (i.quantity : Rat))).sum ∧
    (calculate_totals items).taxes = 0 ∧
    (calculate_totals items).fees = 0 ∧
    (calculate_totals items).total = round2 (calculate_totals items).subtotal ∧
    (∀ f : OrderItem → Rat,
        calculate_totals (items.map (fun i => { i with subtotal := f i }))
          = calculate_totals items) ∧
    (∀ n : Int, (calculate_totals items).subtotal = (n : Rat) / 100 →
        (calculate_totals items).total = (calculate_totals items).subtotal) := by
  have hbody : calculate_totals items
      = totalsOfSubtotal ((items.map (fun i => i.unit_price * (i.quantity : Rat))).sum) := rfl
  have heq := totalsOfSubtotal_eq
      ((items.map (fun i => i.unit_price * (i.quantity : Rat))).sum)
  refine ⟨?_, ?_, ?_, ?_, fun f => ?_, fun n hn => ?_⟩
  · rw [hbody, heq]
  · rw [hbody, heq]
  · rw [hbody, heq]
  · rw [hbody, heq]
  · show totalsOfSubtotal _ = totalsOfSubtotal _
    apply congrArg totalsOfSubtotal
    apply congrArg List.sum
    rw [List.map_map]
    rfl
  · rw [hbody, heq] at hn ⊢
    have hn2 : (List.map (fun i => i.unit_price * (i.quantity : Rat)) items).sum
        = (n : Rat) / 100 := hn
    show round2 ((List.map (fun i => i.unit_price * (i.quantity : Rat)) items).sum)
        = (List.map (fun i => i.unit_price * (i.quantity : Rat)) items).sum
    rw [hn2, round2_of_cents]

/-- Witness for C3: for one item with `unit_price = 2`, `quantity = 3` the
subtotal 6 is a whole number of hundredths (600/100), so the total equals
the subtotal there. -/
theorem c3_witness :
    (calculate_totals [sampleItem]).total = (calculate_totals [sampleItem]).subtotal :=
  (c3_totals_amended [sampleItem]).2.2.2.2.2 600
    (by norm_num [calculate_totals, totalsOfSubtotal, sampleItem])

/-- C4: for a stored order whose id is a well-formed identifier,
`confirm_order` with that id sets the order's status to `"paid"` and
records the client-supplied `payment_ref` — unconditionally: the theorem
places no condition on the order's prior `status` and allows
`payment_ref = none`; no payment-processor check appears anywhere in the
computation. -/
theorem c4_confirm_marks_paid (pre post : List OrderDoc) (o : OrderDoc)
    (ref : Option String)
    (hv : isValidObjectId o.id = true)
    (hpre : ∀ p ∈ pre, p.id ≠ o.id) :
    confirm_order (pre ++ o :: post) { order_id := o.id, payment_ref := ref }
      = (ConfirmOutcome.confirmOk,
         pre ++ { o with status := "paid", payment_ref := ref } :: post) := by
  simp only [confirm_order]
  rw [if_neg (isValidObjectId_ne_empty hv), if_pos hv]
  have hq : ∀ x ∈ pre, (x.id == o.id) = false := fun x hx => by
    simp [hpre x hx]
  rw [updateFirst_append_none _ _ _ _ hq]
  simp [updateFirst]

/-- Witness for C4: confirming the stored sample order (status
`"payment_required"`, no payment reference supplied) marks it paid. -/
theorem c4_witness :
    isValidObjectId sampleOrder.id = true ∧
    confirm_order ([] ++ sampleOrder :: [])
        { order_id := sampleOrder.id, payment_ref := none }
      = (ConfirmOutcome.confirmOk,
         [] ++ { sampleOrder with status := "paid", payment_ref := none } :: []) :=
  ⟨by decide, c4_confirm_marks_paid [] [] sampleOrder none (by decide) (by simp)⟩

/-- C5: for a request that passes the `Order(...)` construction (its
`order_type` is `"pickup"` or `"delivery"`), if the payment-processor call
(made for `int(total * 100)` minor units, before anything is persisted)
fails, `create_order` returns the 500 error and the store is unchanged —
no order document is persisted; if it returns an intent, the persisted
order carries that intent id with status `"payment_required"`; with no
processor configured the order is persisted with the schema default status
and no intent.  A request failing that construction is itself a 500 with
nothing persisted and the Stripe call never made. -/
theorem c5_create_order_payment (newId : String) (stripe : Int → StripeOutcome)
    (store : List OrderDoc) (body : CreateOrderBody) :
    ((body.order_type = "pickup" ∨ body.order_type = "delivery") →
        stripe (intTrunc ((orderRecord newId body).total * 100))
          = StripeOutcome.failure →
        create_order newId stripe store body
          = (CreateOrderOutcome.serverError, store)) ∧
    ((body.order_type = "pickup" ∨ body.order_type = "delivery") →
        ∀ iid, stripe (intTrunc ((orderRecord newId body).total * 100))
          = StripeOutcome.success iid →
        create_order newId stripe store body
          = (CreateOrderOutcome.created newId (some iid),
             store ++ [{ orderRecord newId body with
                          payment_intent_id := some iid
                          status := "payment_required" }])) ∧
    ((body.order_type = "pickup" ∨ body.order_type = "delivery") →
        stripe (intTrunc ((orderRecord newId body).total * 100))
          = StripeOutcome.notConfigured →
        create_order newId stripe store body
          = (CreateOrderOutcome.created newId none,
             store ++ [orderRecord newId body])) ∧
    (¬(body.order_type = "pickup" ∨ body.order_type = "delivery") →
        create_order newId stripe store body
          = (CreateOrderOutcome.validationError, store)) := by
  have hval : (body.order_type = "pickup" ∨ body.order_type = "delivery") →
      create_order newId stripe store body
        = persistOrder newId stripe store (orderRecord newId body) := by
    intro hv
    unfold create_order buildOrderDoc
    rw [if_pos hv]
  refine ⟨fun hv h => ?_, fun hv iid h => ?_, fun hv h => ?_, fun hv => ?_⟩
  · rw [hval hv]
    unfold persistOrder
    rw [h]
  · rw [hval hv]
    unfold persistOrder
    rw [h]
  · rw [hval hv]
    unfold persistOrder
    rw [h]
  · unfold create_order buildOrderDoc
    rw [if_neg hv]

/-- Witness for C5: with a processor configured whose intent creation
fails, a valid pickup-order request fails with 500 and nothing is stored. -/
theorem c5_witness :
    create_order "newid" (fun _ => StripeOutcome.failure) [] sampleOrderBody
      = (CreateOrderOutcome.serverError, []) :=
  (c5_create_order_payment "newid" (fun _ => StripeOutcome.failure) []
    sampleOrderBody).1 (Or.inl rfl) rfl

/-- C10: `confirm_order` with a well-formed identifier matching no stored
order returns `{ok: true}` and leaves the store unchanged (the update
matches nothing) — not a 404; it answers with `confirmOk` exactly when the
identifier is well-formed, and on a malformed identifier (the empty string
included) it returns the corresponding 400 with the store unchanged. -/
theorem c10_confirm_unknown_id (store : List OrderDoc) (body : ConfirmBody) :
    (isValidObjectId body.order_id = true →
        (∀ o ∈ store, o.id ≠ body.order_id) →
        confirm_order store body = (ConfirmOutcome.confirmOk, store)) ∧
    ((confirm_order store body).1 = ConfirmOutcome.confirmOk ↔
        isValidObjectId body.order_id = true) ∧
    (isValidObjectId body.order_id = false →
        confirm_order store body
          = (ConfirmOutcome.badRequest
              (if body.order_id = "" then "Missing order_id" else "Invalid id"),
             store)) := by
  refine ⟨fun hv hnone => ?_, ?_, fun hinv => ?_⟩
  · simp only [confirm_order]
    rw [if_neg (isValidObjectId_ne_empty hv), if_pos hv]
    rw [updateFirst_of_none _ _ _ (fun x hx => by simp [hnone x hx])]
  · by_cases he : body.order_id = ""
    · have hinv : isValidObjectId body.order_id = false := by rw [he]; decide
      simp only [confirm_order, if_pos he]
      simp [hinv]
    · simp only [confirm_order, if_neg he]
      by_cases hv : isValidObjectId body.order_id = true
      · simp [hv]
      · simp [hv]
  · by_cases he : body.order_id = ""
    · simp only [confirm_order, if_pos he]
    · simp only [confirm_order, if_neg he]
      rw [if_neg (by simp [hinv])]

/-- Witness for C10: a well-formed identifier made of 24 `'a'` characters
matches no stored order, yet confirmation reports success and the store is
untouched. -/
theorem c10_witness :
    isValidObjectId "aaaaaaaaaaaaaaaaaaaaaaaa" = true ∧
    confirm_order [sampleOrder]
        { order_id := "aaaaaaaaaaaaaaaaaaaaaaaa", payment_ref := some "ref" }
      = (ConfirmOutcome.confirmOk, [sampleOrder]) :=
  ⟨by decide,
   (c10_confirm_unknown_id [sampleOrder]
      { order_id := "aaaaaaaaaaaaaaaaaaaaaaaa", payment_ref := some "ref" }).1
     (by decide) (by decide)⟩

/-- C6 counterexample: `get_menu` applies no `is_active` filter — a store
holding a single item with `is_active = false` is returned in full by the
unparameterised menu query, so the claim that the listing keeps only
`is_active = true` items fails. -/
theorem c6_counterexample :
    ((get_menu [inactiveItem] [] none none).2).all (fun i => i.is_active) = false := by
  decide

/-- C6 (amended): the menu listing returns exactly the stored items passing
the pass-through filters — tag membership and category equality, each
skipped when absent or empty (Python truthiness) — in store order, and all
categories; no `is_active` filtering is applied (see the counterexample). -/
theorem c6_menu_filter_amended (items : List MenuItem) (cats : List MenuCategory)
    (tag category : Option String) :
    (get_menu items cats tag category).1 = cats ∧
    List.Sublist (get_menu items cats tag category).2 items ∧
    (∀ i, i ∈ (get_menu items cats tag category).2 ↔
        (i ∈ items ∧
         (∀ t, tag = some t → t ≠ "" → t ∈ i.tags) ∧
         (∀ c, category = some c → c ≠ "" → i.category_slug = c))) := by
  refine ⟨rfl, List.filter_sublist items, fun i => ⟨fun hi => ?_, fun hi => ?_⟩⟩
  · obtain ⟨him, hmatch⟩ := List.mem_filter.mp hi
    unfold menuItemMatches at hmatch
    rw [Bool.and_eq_true] at hmatch
    refine ⟨him, ?_, ?_⟩
    · intro t ht hne
      subst ht
      have h1 : (if t = "" then true else i.tags.contains t) = true := hmatch.1
      rw [if_neg hne] at h1
      exact List.mem_of_elem_eq_true h1
    · intro c hcq hne
      subst hcq
      have h2 : (if c = "" then true else (i.category_slug == c)) = true := hmatch.2
      rw [if_neg hne] at h2
      exact eq_of_beq h2
  · obtain ⟨him, htag, hcat⟩ := hi
    refine List.mem_filter.mpr ⟨him, ?_⟩
    unfold menuItemMatches
    rw [Bool.and_eq_true]
    constructor
    · cases tag with
      | none => rfl
      | some t =>
        show (if t = "" then true else i.tags.contains t) = true
        by_cases hne : t = ""
        · rw [if_pos hne]
        · rw [if_neg hne]
          exact List.elem_eq_true_of_mem (htag t rfl hne)
    · cases category with
      | none => rfl
      | some c =>
        show (if c = "" then true else (i.category_slug == c)) = true
        by_cases hne : c = ""
        · rw [if_pos hne]
        · rw [if_neg hne]
          exact beq_iff_eq.mpr (hcat c rfl hne)

/-- Witness for C6: a `tag=vegan` query over a two-item store returns the
matching item. -/
theorem c6_witness :
    veganItem ∈ (get_menu [veganItem, inactiveItem] [] (some "vegan") none).2 := by
  refine ((c6_menu_filter_amended [veganItem, inactiveItem] []
      (some "vegan") none).2.2 veganItem).mpr ⟨by simp, ?_, ?_⟩
  · intro t ht hne
    injection ht with ht
    subst ht
    decide
  · intro c hc hne
    exact absurd hc (by simp)

/-- C7: the gallery listing is a permutation of the stored images with
`is_active = true`, its positions are pairwise nondecreasing, every
returned image is active, and on the spec's example store (active positions
3, 1, 2 plus an inactive image at position 0) the returned positions are
exactly `[1, 2, 3]`. -/
theorem c7_gallery_sorted (store : List GalleryImage) :
    List.Perm (gallery_list store) (store.filter (fun i => i.is_active)) ∧
    List.Pairwise galleryLe (gallery_list store) ∧
    (gallery_list store).all (fun i => i.is_active) = true ∧
    (gallery_list exampleGallery).map (fun i => i.position) = [1, 2, 3] := by
  have hperm : List.Perm (gallery_list store) (store.filter (fun i => i.is_active)) :=
    List.perm_insertionSort galleryLe _
  refine ⟨hperm, ?_, ?_, by decide⟩
  · haveI : IsTotal GalleryImage galleryLe :=
      ⟨fun a b => le_total a.position b.position⟩
    haveI : IsTrans GalleryImage galleryLe :=
      ⟨fun a b c h1 h2 => le_trans h1 h2⟩
    exact List.sorted_insertionSort galleryLe _
  · rw [List.all_eq_true]
    intro i hi
    exact (List.mem_filter.mp (hperm.mem_iff.mp hi)).2

/-- C8: the blog detail endpoint 404s exactly when no stored post carries
the requested slug with `published = true` — in particular when a post with
the slug exists but is unpublished — and otherwise returns a stored,
published post with that slug. -/
theorem c8_blog_detail (store : List BlogPost) (slug : String) :
    (blog_detail store slug = none ↔
        ∀ p ∈ store, p.slug = slug → p.published = false) ∧
    (∀ p, blog_detail store slug = some p →
        p ∈ store ∧ p.slug = slug ∧ p.published = true) := by
  constructor
  · unfold blog_detail
    cases hf : store.filter (fun p => p.slug == slug && p.published) with
    | nil =>
      refine ⟨fun _ p hp hs => ?_, fun _ => rfl⟩
      have hnp := (List.filter_eq_nil_iff.mp hf) p hp
      cases hpub : p.published with
      | false => rfl
      | true =>
        exact absurd (by rw [Bool.and_eq_true]
                         exact ⟨beq_iff_eq.mpr hs, hpub⟩) hnp
    | cons q qs =>
      refine ⟨fun h => absurd h (by simp), fun hall => ?_⟩
      have hq : q ∈ store.filter (fun p => p.slug == slug && p.published) :=
        hf ▸ List.mem_cons_self q qs
      obtain ⟨hqs, hqp⟩ := List.mem_filter.mp hq
      rw [Bool.and_eq_true] at hqp
      have h2 : q.published = true := hqp.2
      rw [hall q hqs (eq_of_beq hqp.1)] at h2
      exact absurd h2 (by simp)
  · intro p hp
    unfold blog_detail at hp
    cases hf : store.filter (fun p => p.slug == slug && p.published) with
    | nil => rw [hf] at hp; exact absurd hp (by simp)
    | cons q qs =>
      rw [hf] at hp
      have hp2 : some q = some p := hp
      injection hp2 with hp2
      rw [← hp2]
      have hq : q ∈ store.filter (fun r => r.slug == slug && r.published) :=
        hf ▸ List.mem_cons_self q qs
      obtain ⟨hqs, hqp⟩ := List.mem_filter.mp hq
      rw [Bool.and_eq_true] at hqp
      exact ⟨hqs, eq_of_beq hqp.1, hqp.2⟩

/-- Witness for C8: with one unpublished and one published post sharing
nothing, the unpublished slug 404s and the published slug is returned. -/
theorem c8_witness :
    blog_detail
        [{ title := "Draft", slug := "draft", excerpt := none, content := "d"
           cover_image_url := none, published := false, published_at := none }]
        "draft" = none :=
  (c8_blog_detail
      [{ title := "Draft", slug := "draft", excerpt := none, content := "d"
         cover_image_url := none, published := false, published_at := none }]
      "draft").1.mpr (by intro p hp hs; simp at hp; rw [hp])

/-- C9: admin category/item upsert is keyed by slug with insert-or-replace
semantics — a payload whose slug matches no stored document is appended, a
payload whose slug matches replaces (all fields of) the first matching
document in place, and upserting the same payload twice equals upserting it
once. -/
theorem c9_upsert_slug (store : List MenuItem) (p : UpsertItem)
    (storeC : List MenuCategory) (c : UpsertCategory) :
    ((∀ d ∈ store, d.slug ≠ p.slug) →
        upsert_item store p = store ++ [itemOfUpsert p]) ∧
    (∀ pre post d, store = pre ++ d :: post → d.slug = p.slug →
        (∀ e ∈ pre, e.slug ≠ p.slug) →
        upsert_item store p = pre ++ itemOfUpsert p :: post) ∧
    upsert_item (upsert_item store p) p = upsert_item store p ∧
    ((∀ d ∈ storeC, d.slug ≠ c.slug) →
        upsert_category storeC c = storeC ++ [categoryOfUpsert c]) ∧
    (∀ pre post d, storeC = pre ++ d :: post → d.slug = c.slug →
        (∀ e ∈ pre, e.slug ≠ c.slug) →
        upsert_category storeC c = pre ++ categoryOfUpsert c :: post) ∧
    upsert_category (upsert_category storeC c) c = upsert_category storeC c := by
  have hvI : ((itemOfUpsert p).slug == p.slug) = true := by
    exact beq_iff_eq.mpr rfl
  have hvC : ((categoryOfUpsert c).slug == c.slug) = true := by
    exact beq_iff_eq.mpr rfl
  refine ⟨fun h => ?_, fun pre post d hst hd hpre => ?_, ?_,
          fun h => ?_, fun pre post d hst hd hpre => ?_, ?_⟩
  · have hany : store.any (fun d => d.slug == p.slug) = false :=
      List.any_eq_false.mpr (fun d hd hbeq => h d hd (eq_of_beq hbeq))
    unfold upsert_item
    rw [if_neg (by simp [hany])]
  · subst hst
    have hany : (pre ++ d :: post).any (fun e => e.slug == p.slug) = true :=
      List.any_eq_true.mpr
        ⟨d, List.mem_append_right pre (List.mem_cons_self d post),
         beq_iff_eq.mpr hd⟩
    unfold upsert_item
    rw [if_pos hany,
        updateFirst_append_none _ _ _ _
          (fun e he => beq_eq_false_iff_ne.mpr (hpre e he)),
        updateFirst_cons_of_pos (fun e => e.slug == p.slug)
          (fun _ => itemOfUpsert p) d post (beq_iff_eq.mpr hd)]
  · unfold upsert_item
    by_cases h : store.any (fun d => d.slug == p.slug) = true
    · rw [if_pos h,
          if_pos (any_updateFirst_const (fun d => d.slug == p.slug)
            (itemOfUpsert p) hvI store h),
          updateFirst_const_idem (fun d => d.slug == p.slug)
            (itemOfUpsert p) hvI store]
    · have h' : store.any (fun d => d.slug == p.slug) = false := by
        simpa using h
      have hall : ∀ x ∈ store, (x.slug == p.slug) = false := by
        intro x hx
        have hx2 := List.any_eq_false.mp h' x hx
        simpa using hx2
      have happ : (store ++ [itemOfUpsert p]).any (fun d => d.slug == p.slug) = true :=
        List.any_eq_true.mpr
          ⟨itemOfUpsert p,
           List.mem_append_right store (List.mem_cons_self _ []), hvI⟩
      rw [if_neg h, if_pos happ, updateFirst_append_none _ _ _ _ hall,
          updateFirst_cons_of_pos (fun e => e.slug == p.slug)
            (fun _ => itemOfUpsert p) (itemOfUpsert p) [] hvI]
  · have hany : storeC.any (fun d => d.slug == c.slug) = false :=
      List.any_eq_false.mpr (fun d hd hbeq => h d hd (eq_of_beq hbeq))
    unfold upsert_category
    rw [if_neg (by simp [hany])]
  · subst hst
    have hany : (pre ++ d :: post).any (fun e => e.slug == c.slug) = true :=
      List.any_eq_true.mpr
        ⟨d, List.mem_append_right pre (List.mem_cons_self d post),
         beq_iff_eq.mpr hd⟩
    unfold upsert_category
    rw [if_pos hany,
        updateFirst_append_none _ _ _ _
          (fun e he => beq_eq_false_iff_ne.mpr (hpre e he)),
        updateFirst_cons_of_pos (fun e => e.slug == c.slug)
          (fun _ => categoryOfUpsert c) d post (beq_iff_eq.mpr hd)]
  · unfold upsert_category
    by_cases h : storeC.any (fun d => d.slug == c.slug) = true
    · rw [if_pos h,
          if_pos (any_updateFirst_const (fun d => d.slug == c.slug)
            (categoryOfUpsert c) hvC storeC h),
          updateFirst_const_idem (fun d => d.slug == c.slug)
            (categoryOfUpsert c) hvC storeC]
    · have h' : storeC.any (fun d => d.slug == c.slug) = false := by
        simpa using h
      have hall : ∀ x ∈ storeC, (x.slug == c.slug) = false := by
        intro x hx
        have hx2 := List.any_eq_false.mp h' x hx
        simpa using hx2
      have happ : (storeC ++ [categoryOfUpsert c]).any (fun d => d.slug == c.slug) = true :=
        List.any_eq_true.mpr
          ⟨categoryOfUpsert c,
           List.mem_append_right storeC (List.mem_cons_self _ []), hvC⟩
      rw [if_neg h, if_pos happ, updateFirst_append_none _ _ _ _ hall,
          updateFirst_cons_of_pos (fun e => e.slug == c.slug)
            (fun _ => categoryOfUpsert c) (categoryOfUpsert c) [] hvC]

/-- Witness for C9: upserting a payload into an empty item store inserts
it, and repeating the same upsert changes nothing. -/
theorem c9_witness :
    upsert_item [] sampleUpsertItem = [] ++ [itemOfUpsert sampleUpsertItem] ∧
    upsert_item (upsert_item [] sampleUpsertItem) sampleUpsertItem
      = upsert_item [] sampleUpsertItem :=
  ⟨(c9_upsert_slug [] sampleUpsertItem [] sampleUpsertCat).1 (by simp),
   (c9_upsert_slug [] sampleUpsertItem [] sampleUpsertCat).2.2.1⟩

end BoomiisUK
